import Mathlib

/-
  Shallow embedding of the persistence layer of the pmo repository
  (src/database.py and src/db_integration.py).

  Modelling conventions:
  * SQLite tables are association-free lists of row structures; a fresh
    AUTOINCREMENT counter for the inventory surrogate key is carried in the
    state.  SELECT ... fetchone() is List.find? (first row in insertion
    order), INSERT appends at the end, INSERT OR REPLACE deletes the old
    row and appends the new one (fresh rowid), UPDATE maps over the rows.
  * CURRENT_TIMESTAMP is modelled by an explicit time argument t : Nat
    passed to every operation that stamps a row.
  * Python dict values that may be absent are Option fields; a JSON null
    stored in a nullable column is an Option in the row type.  JSON blobs
    that the store treats as opaque (inventory metadata, store metadata)
    are kept as serialized strings.
  * Every Entity Store method of database.py wraps its statements in
    try/except sqlite3.Error with commit on success and rollback on error,
    so each helper call is one committed unit; the model functions are the
    committed-state transformers of the no-storage-fault executions, and
    where a claim is about the storage-fault path (get_user) the fault is
    an explicit boolean parameter.
  * A Python value that is not of the shape the code expects (a non-dict
    document entry) raises AttributeError when the code calls .get on it;
    such entries are modelled as the none case of an Option payload and
    the raise is modelled by the enclosing function returning early with
    the state accumulated so far (all earlier helper calls committed, the
    pending transaction at the raise point is empty, so the outer rollback
    restores nothing).
  * sqlite3 runs with PRAGMA foreign_keys off (the code never enables it),
    so ON DELETE CASCADE clauses are inert and foreign keys are not
    enforced; raw DELETE statements remove only the named rows.
-/

namespace Pmo

/-- One row of the users table (database.py _create_tables). -/
structure UserRow where
  user_id : String
  cash : Int
  bank : Int
  job : Option String
  last_cultivate : Option String
  last_collect : Option String
  message_count : Int
  created_at : Nat
  updated_at : Nat
deriving Repr, DecidableEq

/-- One row of the inventory table; id is the AUTOINCREMENT surrogate key. -/
structure InvRow where
  id : Nat
  user_id : String
  item_name : String
  quantity : Int
  rarity : String
  metadata : String
deriving Repr, DecidableEq

/-- One row of the jobs table. -/
structure JobRow where
  job_name : String
  min_pay : Int
  max_pay : Int
deriving Repr, DecidableEq

/-- One row of the user_jobs table. -/
structure UserJobRow where
  user_id : String
  job_name : String
  xp : Int
  rank : String
  last_work : Option String
deriving Repr, DecidableEq

/-- One row of the sects table. -/
structure SectRow where
  sect_id : String
  name : String
  leader_id : Option String
  description : String
  level : Int
  wealth : Int
  max_members : Int
  created_at : Nat
deriving Repr, DecidableEq

/-- One row of the sect_members table. -/
structure SectMemberRow where
  sect_id : String
  user_id : String
  role : String
  joined_at : Nat
deriving Repr, DecidableEq

/-- One row of the store_items table; metadata is the serialized JSON blob. -/
structure StoreItemRow where
  item_name : String
  price : Int
  description : String
  stock : Int
  min_rank : Int
  rarity : String
  metadata : String
deriving Repr, DecidableEq

/-- The reward_data JSON blob of a tournament, parsed form: the four keys
the code ever reads or writes. -/
structure Reward where
  add_money : Option Int := none
  set_money : Option Int := none
  rem_money : Option Int := none
  reward_title : Option String := none
deriving Repr, DecidableEq

/-- One row of the tournaments table. -/
structure TournRow where
  tournament_id : String
  host_id : Option String
  title : String
  description : String
  status : String
  created_at : Nat
  winner_id : Option String
  reward_data : Reward
deriving Repr, DecidableEq

/-- One row of the tournament_participants table. -/
structure PartRow where
  tournament_id : String
  participant_id : String
  joined_at : Nat
  is_bot : Bool
  bot_name : Option String
deriving Repr, DecidableEq

/-- The whole SQLite database state. -/
structure DB where
  users : List UserRow
  inventory : List InvRow
  next_inv : Nat
  jobs : List JobRow
  user_jobs : List UserJobRow
  sects : List SectRow
  sect_members : List SectMemberRow
  store_items : List StoreItemRow
  tournaments : List TournRow
  tournament_participants : List PartRow
deriving Repr, DecidableEq

/-- The empty database right after _create_tables (AUTOINCREMENT starts at 1). -/
def dbEmpty : DB :=
  { users := [], inventory := [], next_inv := 1, jobs := [], user_jobs := [],
    sects := [], sect_members := [], store_items := [], tournaments := [],
    tournament_participants := [] }

/-- The serialized empty JSON object json.dumps(\x7b\x7d). -/
def emptyJson : String := "\x7b\x7d"

/-- The dict returned by get_user on the create path and on the error path:
user_id, cash, bank, job, last_cultivate, last_collect, message_count.  The
created_at and updated_at keys are present only when the row was read back
from the table, hence they are Option fields that the literal dict leaves
at none. -/
structure UserRet where
  user_id : String
  cash : Int
  bank : Int
  job : Option String
  last_cultivate : Option String
  last_collect : Option String
  message_count : Int
  created_at : Option Nat
  updated_at : Option Nat
deriving Repr, DecidableEq

/-- The literal dict built in both the create branch and the except branch
of get_user. -/
def defaultUserRet (uid : String) : UserRet :=
  { user_id := uid, cash := 0, bank := 0, job := none, last_cultivate := none,
    last_collect := none, message_count := 0, created_at := none, updated_at := none }

/-- SELECT * FROM users WHERE user_id = ? (fetchone). -/
def findUser (db : DB) (uid : String) : Option UserRow :=
  db.users.find? (fun u => u.user_id == uid)

/-- The row inserted by the create branch of get_user: INSERT INTO users
(user_id, cash, bank) VALUES (?, 0, 0) with the schema defaults for the
remaining columns and CURRENT_TIMESTAMP for the two timestamps. -/
def rowNew (uid : String) (t : Nat) : UserRow :=
  { user_id := uid, cash := 0, bank := 0, job := none, last_cultivate := none,
    last_collect := none, message_count := 0, created_at := t, updated_at := t }

/-- dict(row) for a users row: every column, timestamps included. -/
def retOf (u : UserRow) : UserRet :=
  { user_id := u.user_id, cash := u.cash, bank := u.bank, job := u.job,
    last_cultivate := u.last_cultivate, last_collect := u.last_collect,
    message_count := u.message_count, created_at := some u.created_at,
    updated_at := some u.updated_at }

/-- database.py Database.get_user with an explicit storage-fault flag for the
except sqlite3.Error branch.  On a hit it returns dict(row); on a miss it
inserts (user_id, 0, 0) with schema defaults for the other columns, commits,
and returns the literal default dict (which has no created_at key); on a
storage fault it rolls back (no committed change) and returns the same
literal default dict. -/
def get_userE (fault : Bool) (t : Nat) (db : DB) (uid : String) : UserRet × DB :=
  if fault then (defaultUserRet uid, db)
  else
    match findUser db uid with
    | some u => (retOf u, db)
    | none => (defaultUserRet uid, { db with users := db.users ++ [rowNew uid t] })

/-- get_user on the no-fault path, as called internally by the other methods. -/
def get_user (t : Nat) (db : DB) (uid : String) : UserRet × DB :=
  get_userE false t db uid

/-- The partial-update dict accepted by update_user: the six updatable
columns (user_id is filtered out by the code, and all six keys are always
present in the dict get_user returns, so the key-in-user filter keeps
exactly these). -/
structure UserUpdate where
  cash : Option Int := none
  bank : Option Int := none
  job : Option (Option String) := none
  last_cultivate : Option (Option String) := none
  last_collect : Option (Option String) := none
  message_count : Option Int := none
deriving Repr, DecidableEq

def UserUpdate.isEmpty (d : UserUpdate) : Bool :=
  d.cash.isNone && d.bank.isNone && d.job.isNone && d.last_cultivate.isNone &&
  d.last_collect.isNone && d.message_count.isNone

def applyUserUpdate (t : Nat) (d : UserUpdate) (u : UserRow) : UserRow :=
  { u with cash := d.cash.getD u.cash, bank := d.bank.getD u.bank,
           job := d.job.getD u.job,
           last_cultivate := d.last_cultivate.getD u.last_cultivate,
           last_collect := d.last_collect.getD u.last_collect,
           message_count := d.message_count.getD u.message_count,
           updated_at := t }

/-- database.py Database.update_user: get-or-create the row, then UPDATE the
provided fields (plus updated_at = CURRENT_TIMESTAMP); an empty field set is
a no-op returning true.  The stored values are written exactly as provided,
with no clamping. -/
def update_user (t : Nat) (db : DB) (uid : String) (d : UserUpdate) : Bool × DB :=
  let r := get_user t db uid
  if d.isEmpty then (true, r.2)
  else
    (true, { r.2 with users := (r.2.users.map
        (fun u => if u.user_id == uid then applyUserUpdate t d u else u)) })

/-- database.py Database.add_cash: read-modify-write with max(0, cash + amount). -/
def add_cash (t : Nat) (db : DB) (uid : String) (amount : Int) : Bool × DB :=
  let r := get_user t db uid
  let newCash := max 0 (r.1.cash + amount)
  update_user t r.2 uid { cash := some newCash }

/-- database.py Database.set_cash: max(0, amount) then update_user. -/
def set_cash (t : Nat) (db : DB) (uid : String) (amount : Int) : Bool × DB :=
  update_user t db uid { cash := some (max 0 amount) }

/-- database.py Database.add_bank. -/
def add_bank (t : Nat) (db : DB) (uid : String) (amount : Int) : Bool × DB :=
  let r := get_user t db uid
  let newBank := max 0 (r.1.bank + amount)
  update_user t r.2 uid { bank := some newBank }

/-- database.py Database.set_bank. -/
def set_bank (t : Nat) (db : DB) (uid : String) (amount : Int) : Bool × DB :=
  update_user t db uid { bank := some (max 0 amount) }

/-- SELECT * FROM inventory WHERE user_id = ?. -/
def get_inventory (db : DB) (uid : String) : List InvRow :=
  db.inventory.filter (fun r => r.user_id == uid)

/-- database.py Database.add_inventory_item: merge-or-insert on the
(user_id, item_name, rarity) triple.  When a row exists only its quantity
is updated; the metadata argument is stored only on the insert branch. -/
def add_inventory_item (t : Nat) (db : DB) (uid itemName : String) (quantity : Int)
    (rarity : String) (metaArg : String) : Bool × DB :=
  let r := get_user t db uid
  let db1 := r.2
  match db1.inventory.find? (fun x =>
      x.user_id == uid && x.item_name == itemName && x.rarity == rarity) with
  | some ex =>
      (true, { db1 with inventory := (db1.inventory.map
          (fun x => if x.id == ex.id then { x with quantity := ex.quantity + quantity } else x)) })
  | none =>
      (true, { db1 with
          inventory := db1.inventory ++
            [{ id := db1.next_inv, user_id := uid, item_name := itemName,
               quantity := quantity, rarity := rarity, metadata := metaArg }],
          next_inv := db1.next_inv + 1 })

/-- The row-match predicate of remove_inventory_item: the rarity filter is
applied only when the rarity argument is truthy (not None and not the empty
string), mirroring the Python if rarity: test. -/
def invMatches (uid itemName : String) (rarity : Option String) (r : InvRow) : Bool :=
  match rarity with
  | some rr =>
      if rr == "" then r.user_id == uid && r.item_name == itemName
      else r.user_id == uid && r.item_name == itemName && r.rarity == rr
  | none => r.user_id == uid && r.item_name == itemName

/-- database.py Database.remove_inventory_item: fetchone the first matching
row; a missing row returns False with no change; otherwise delete the row
when its quantity is at most the requested amount, else decrement. -/
def remove_inventory_item (db : DB) (uid itemName : String) (quantity : Int)
    (rarity : Option String) : Bool × DB :=
  match db.inventory.find? (invMatches uid itemName rarity) with
  | none => (false, db)
  | some ex =>
      if ex.quantity ≤ quantity then
        (true, { db with inventory := db.inventory.filter (fun r => r.id != ex.id) })
      else
        (true, { db with inventory := (db.inventory.map
            (fun r => if r.id == ex.id then { r with quantity := ex.quantity - quantity } else r)) })

/-- database.py Database.set_job: INSERT OR REPLACE into jobs. -/
def set_job (db : DB) (jobName : String) (minPay maxPay : Int) : Bool × DB :=
  (true, { db with jobs :=
      db.jobs.filter (fun j => j.job_name != jobName) ++
      [{ job_name := jobName, min_pay := minPay, max_pay := maxPay }] })

/-- The partial-update dict accepted by update_user_job (the keys the
callers in this repository pass). -/
structure UJUpdate where
  xp : Option Int := none
  rank : Option String := none
  last_work : Option (Option String) := none
deriving Repr, DecidableEq

def UJUpdate.isEmpty (d : UJUpdate) : Bool :=
  d.xp.isNone && d.rank.isNone && d.last_work.isNone

/-- database.py Database.update_user_job: ensure the user row exists, then
UPDATE the existing user_jobs row, or INSERT a new one with setdefault
xp = 0 and rank = apprentice merged into the provided fields. -/
def update_user_job (t : Nat) (db : DB) (uid jobName : String) (d : UJUpdate) : Bool × DB :=
  let r := get_user t db uid
  let db1 := r.2
  match db1.user_jobs.find? (fun x => x.user_id == uid && x.job_name == jobName) with
  | some _ =>
      if d.isEmpty then (true, db1)
      else
        (true, { db1 with user_jobs := (db1.user_jobs.map
            (fun x => if x.user_id == uid && x.job_name == jobName then
                { x with xp := d.xp.getD x.xp, rank := d.rank.getD x.rank,
                         last_work := d.last_work.getD x.last_work }
              else x)) })
  | none =>
      (true, { db1 with user_jobs := db1.user_jobs ++
          [{ user_id := uid, job_name := jobName, xp := d.xp.getD 0,
             rank := d.rank.getD "apprentice", last_work := d.last_work.getD none }] })

/-- SELECT * FROM sects WHERE sect_id = ? (fetchone). -/
def get_sect (db : DB) (sid : String) : Option SectRow :=
  db.sects.find? (fun s => s.sect_id == sid)

/-- database.py Database.create_sect: ensure the leader user exists (this
insert commits on its own), then INSERT the sect row and the leader member
row in one transaction; a primary-key violation on either insert rolls both
back (but not the committed get_user) and returns false. -/
def create_sect (t : Nat) (db : DB) (sid name leader desc : String)
    (level wealth : Int) : Bool × DB :=
  let r := get_user t db leader
  let db1 := r.2
  if (get_sect db1 sid).isSome then (false, db1)
  else if db1.sect_members.any (fun m => m.sect_id == sid && m.user_id == leader) then
    (false, db1)
  else
    (true, { db1 with
        sects := db1.sects ++
          [{ sect_id := sid, name := name, leader_id := some leader,
             description := desc, level := level, wealth := wealth,
             max_members := 10, created_at := t }],
        sect_members := db1.sect_members ++
          [{ sect_id := sid, user_id := leader, role := "leader", joined_at := t }] })

/-- The partial-update dict accepted by update_sect (the keys the callers in
this repository pass). -/
structure SectUpdate where
  name : Option String := none
  leader_id : Option (Option String) := none
  description : Option String := none
  level : Option Int := none
  wealth : Option Int := none
deriving Repr, DecidableEq

def SectUpdate.isEmpty (d : SectUpdate) : Bool :=
  d.name.isNone && d.leader_id.isNone && d.description.isNone &&
  d.level.isNone && d.wealth.isNone

def applySectUpdate (d : SectUpdate) (s : SectRow) : SectRow :=
  { s with name := d.name.getD s.name, leader_id := d.leader_id.getD s.leader_id,
           description := d.description.getD s.description,
           level := d.level.getD s.level, wealth := d.wealth.getD s.wealth }

/-- database.py Database.update_sect: false when the sect does not exist,
true and a no-op when the field set is empty, else UPDATE the row. -/
def update_sect (db : DB) (sid : String) (d : SectUpdate) : Bool × DB :=
  match get_sect db sid with
  | none => (false, db)
  | some _ =>
      if d.isEmpty then (true, db)
      else
        (true, { db with sects := (db.sects.map
            (fun s => if s.sect_id == sid then applySectUpdate d s else s)) })

/-- database.py Database.get_sect_members: SELECT sm.* ... JOIN users, so a
member row whose user_id has no users row is not returned. -/
def get_sect_members (db : DB) (sid : String) : List SectMemberRow :=
  db.sect_members.filter (fun m =>
    m.sect_id == sid && db.users.any (fun u => u.user_id == m.user_id))

/-- database.py Database.add_sect_member: ensure the user exists, fail when
the sect does not, else INSERT OR REPLACE the membership row (last write
wins; a replaced row gets a fresh rowid and joined_at). -/
def add_sect_member (t : Nat) (db : DB) (sid uid role : String) : Bool × DB :=
  let r := get_user t db uid
  let db1 := r.2
  if (get_sect db1 sid).isSome then
    (true, { db1 with sect_members :=
        db1.sect_members.filter (fun m => !(m.sect_id == sid && m.user_id == uid)) ++
        [{ sect_id := sid, user_id := uid, role := role, joined_at := t }] })
  else (false, db1)

/-- database.py Database.remove_sect_member: unconditional DELETE; deleting
zero rows still returns true. -/
def remove_sect_member (db : DB) (sid uid : String) : Bool × DB :=
  (true, { db with sect_members :=
      db.sect_members.filter (fun m => !(m.sect_id == sid && m.user_id == uid)) })

/-- database.py Database.set_store_item: INSERT OR REPLACE into store_items. -/
def set_store_item (db : DB) (itemName : String) (price : Int) (desc : String)
    (stock minRank : Int) (rarity metaArg : String) : Bool × DB :=
  (true, { db with store_items :=
      db.store_items.filter (fun s => s.item_name != itemName) ++
      [{ item_name := itemName, price := price, description := desc,
         stock := stock, min_rank := minRank, rarity := rarity, metadata := metaArg }] })

/-- SELECT * FROM tournaments WHERE tournament_id = ? (fetchone). -/
def get_tournament (db : DB) (tid : String) : Option TournRow :=
  db.tournaments.find? (fun x => x.tournament_id == tid)

/-- database.py Database.create_tournament: ensure the host user exists
(committed on its own), then INSERT the tournament row with status
recruiting; a duplicate id makes the insert fail and returns false. -/
def create_tournament (t : Nat) (db : DB) (tid host title desc : String)
    (rw : Reward) : Bool × DB :=
  let r := get_user t db host
  let db1 := r.2
  if (get_tournament db1 tid).isSome then (false, db1)
  else
    (true, { db1 with tournaments := db1.tournaments ++
        [{ tournament_id := tid, host_id := some host, title := title,
           description := desc, status := "recruiting", created_at := t,
           winner_id := none, reward_data := rw }] })

/-- The partial-update dict accepted by update_tournament (the keys the
callers in this repository pass). -/
structure TournUpdate where
  title : Option String := none
  host_id : Option (Option String) := none
  description : Option String := none
  status : Option String := none
  winner_id : Option (Option String) := none
  reward_data : Option Reward := none
deriving Repr, DecidableEq

def TournUpdate.isEmpty (d : TournUpdate) : Bool :=
  d.title.isNone && d.host_id.isNone && d.description.isNone &&
  d.status.isNone && d.winner_id.isNone && d.reward_data.isNone

def applyTournUpdate (d : TournUpdate) (x : TournRow) : TournRow :=
  { x with title := d.title.getD x.title, host_id := d.host_id.getD x.host_id,
           description := d.description.getD x.description,
           status := d.status.getD x.status, winner_id := d.winner_id.getD x.winner_id,
           reward_data := d.reward_data.getD x.reward_data }

/-- database.py Database.update_tournament. -/
def update_tournament (db : DB) (tid : String) (d : TournUpdate) : Bool × DB :=
  match get_tournament db tid with
  | none => (false, db)
  | some _ =>
      if d.isEmpty then (true, db)
      else
        (true, { db with tournaments := (db.tournaments.map
            (fun x => if x.tournament_id == tid then applyTournUpdate d x else x)) })

/-- SELECT * FROM tournament_participants WHERE tournament_id = ?. -/
def get_tournament_participants (db : DB) (tid : String) : List PartRow :=
  db.tournament_participants.filter (fun p => p.tournament_id == tid)

/-- database.py Database.add_tournament_participant: fail when the
tournament does not exist; for a non-bot ensure the user exists; then
INSERT OR REPLACE the participant row. -/
def add_tournament_participant (t : Nat) (db : DB) (tid pid : String)
    (isBot : Bool) (botName : Option String) : Bool × DB :=
  if (get_tournament db tid).isSome then
    let db1 := if isBot then db else (get_user t db pid).2
    (true, { db1 with tournament_participants :=
        (db1.tournament_participants.filter
          (fun p => !(p.tournament_id == tid && p.participant_id == pid)) ++
        [{ tournament_id := tid, participant_id := pid, joined_at := t,
           is_bot := isBot, bot_name := botName }]) })
  else (false, db)

/-- database.py Database.remove_tournament_participant: unconditional
DELETE; deleting zero rows still returns true. -/
def remove_tournament_participant (db : DB) (tid pid : String) : Bool × DB :=
  (true, { db with tournament_participants :=
      (db.tournament_participants.filter
        (fun p => !(p.tournament_id == tid && p.participant_id == pid))) })

/-- One sect object of the sects document: the keys the code reads with
sect_data.get.  An absent key and an explicit JSON null both read back as
none (Python .get returns None for both and the code only uses .get and
key-membership on the keys modelled here). -/
structure SectEntry where
  name : Option String := none
  leader : Option String := none
  description : Option String := none
  level : Option Int := none
  wealth : Option Int := none
  members : Option (List String) := none
deriving Repr, DecidableEq

/-- db_integration.py get_sects_data: enumerate sect ids, then per sect
read the row and the (users-joined) member rows and build the document
entry.  The none branch of the inner match is unreachable because each id
comes from the sects table itself. -/
def get_sects_data (db : DB) : List (String × SectEntry) :=
  (db.sects.map (fun s => s.sect_id)).filterMap (fun sid =>
    match get_sect db sid with
    | none => none
    | some row =>
        some (sid,
          { name := some row.name, leader := row.leader_id,
            description := some row.description, level := some row.level,
            wealth := some row.wealth,
            members := some ((get_sect_members db sid).map (fun m => m.user_id)) }))

/-- The document entry that get_sects_data builds for one stored sect row:
named here so the round-trip theorem can speak about it. -/
def sectEntryOf (db : DB) (r : SectRow) : SectEntry :=
  { name := some r.name, leader := r.leader_id, description := some r.description,
    level := some r.level, wealth := some r.wealth,
    members := some ((get_sect_members db r.sect_id).map (fun m => m.user_id)) }

/-- The create-new-sect branch shared verbatim by save_sects_data and
migrate_sects: create the sect (the nominal leader becomes a member with
role leader), then add every listed member whose id differs from the
leader value with the default role member. -/
def createSectFromEntry (t : Nat) (db : DB) (sid : String) (e : SectEntry) : DB :=
  let db1 := (create_sect t db sid (e.name.getD ("Sect " ++ sid)) (e.leader.getD "0")
      (e.description.getD "") (e.level.getD 1) (e.wealth.getD 0)).2
  match e.members with
  | none => db1
  | some ms =>
      ms.foldl (fun d m =>
        if e.leader == some m then d else (add_sect_member t d sid m "member").2) db1

/-- Processing of one (sect_id, sect_data) pair of the incoming document by
save_sects_data.  existing is the id set read once at the start of the
call.  For an existing sect: update the parent row, then reconcile the
member collection by set difference (adds first, against the member-id
list computed once, then removes). -/
def processSectEntry (t : Nat) (existing : List String) (db : DB) (sid : String)
    (e : SectEntry) : DB :=
  if sid ∈ existing then
    let db1 := (update_sect db sid
        { name := some (e.name.getD ("Sect " ++ sid)), leader_id := some e.leader,
          description := some (e.description.getD ""),
          level := some (e.level.getD 1), wealth := some (e.wealth.getD 0) }).2
    match e.members with
    | none => db1
    | some ms =>
        let cur := get_sect_members db1 sid
        let curIds := cur.map (fun m => m.user_id)
        let db2 := ms.foldl (fun d m =>
            if m ∈ curIds then d
            else (add_sect_member t d sid m
                (if e.leader == some m then "leader" else "member")).2) db1
        cur.foldl (fun d m =>
            if m.user_id ∈ ms then d else (remove_sect_member d sid m.user_id).2) db2
  else createSectFromEntry t db sid e

/-- The per-entry loop of save_sects_data with the raise-on-malformed-entry
semantics: a document value that is not a dict raises AttributeError at the
first .get, before any statement of that entry runs; every helper call of
the earlier entries committed on its own, and the pending transaction at
the raise point is empty, so the except-branch rollback leaves the state
accumulated so far.  After a clean loop the sects absent from the document
are deleted (raw DELETE statements, no cascade because foreign_keys is
off) and committed. -/
def saveSectsAux (t : Nat) (existing docKeys : List String) (db : DB) :
    List (String × Option SectEntry) → DB
  | [] =>
      existing.foldl (fun d sid =>
        if sid ∈ docKeys then d
        else { d with sects := (d.sects.filter (fun s => s.sect_id != sid)) }) db
  | (_, none) :: _ => db
  | (sid, some e) :: rest => saveSectsAux t existing docKeys (processSectEntry t existing db sid e) rest

/-- db_integration.py save_sects_data. -/
def save_sects_data (t : Nat) (doc : List (String × Option SectEntry)) (db : DB) : DB :=
  saveSectsAux t (db.sects.map (fun s => s.sect_id)) (doc.map (fun x => x.1)) db doc

/-- A participant value of the tournaments document: Python stores bot ids
as negative ints and user ids as strings or ints. -/
inductive PVal where
  | pint (n : Int)
  | pstr (s : String)
deriving Repr, DecidableEq

/-- Python str() on a participant value. -/
def PVal.str : PVal → String
  | .pint n => toString n
  | .pstr s => s

/-- Lookup in a document bot_names mapping. -/
def lookupStr (l : List (String × String)) (k : String) : Option String :=
  (l.find? (fun x => x.1 == k)).map (fun x => x.2)

/-- The value stored under the bot_names key of a tournament document
entry: either a proper mapping, or any non-dict value (the document is
schema-free), on which the .get call of the migration raises
AttributeError. -/
inductive BotNamesVal where
  | table (m : List (String × String))
  | malformed
deriving Repr, DecidableEq

/-- One tournament object of the tournaments document: the keys the code
reads or writes. -/
structure TournEntry where
  host : Option String := none
  title : Option String := none
  description : Option String := none
  status : Option String := none
  winner : Option String := none
  participants : Option (List PVal) := none
  bot_names : Option BotNamesVal := none
  add_money : Option Int := none
  set_money : Option Int := none
  rem_money : Option Int := none
  reward_title : Option String := none
deriving Repr, DecidableEq

/-- The reward-key extraction shared by migrate_tournaments and
save_tournaments_data. -/
def extractReward (e : TournEntry) : Reward :=
  { add_money := e.add_money, set_money := e.set_money,
    rem_money := e.rem_money, reward_title := e.reward_title }

/-- Python truthiness of an optional string (None and the empty string are
falsy). -/
def optTruthy : Option String → Bool
  | some s => !(s == "")
  | none => false

/-- Decimal digit value of a character, none for a non-digit. -/
def digitVal? (c : Char) : Option Nat :=
  if c.toNat ≥ 48 && c.toNat ≤ 57 then some (c.toNat - 48) else none

/-- Parse a nonempty all-digit character list as a natural number. -/
def parseDigits : List Char → Option Nat
  | [] => none
  | cs => cs.foldl (fun acc c => acc.bind (fun n => (digitVal? c).map (fun d => 10 * n + d)))
      (some 0)

/-- Model of Python int() applied to a string: an optional leading minus
sign followed by decimal digits; any other shape raises ValueError,
modelled as none.  This is the shape of every id string the code converts. -/
def pyInt? (s : String) : Option Int :=
  match s.toList with
  | [] => none
  | c :: rest =>
      if c == Char.ofNat 45 then (parseDigits rest).map (fun n => -(n : Int))
      else (parseDigits (c :: rest)).map (fun n => (n : Int))

/-- The participant-list assembly of get_tournaments_data: walk the stored
rows in order; a row that is a bot with a truthy bot_name contributes its
name to the bot_names mapping keyed by the stored string id and its id is
converted back to int when the string parses (try int() except ValueError
pass); every other row keeps its stored string id. -/
def projectParticipants (rows : List PartRow) : List PVal × List (String × String) :=
  rows.foldl (fun acc r =>
    if r.is_bot && optTruthy r.bot_name then
      ((acc.1 ++ [match pyInt? r.participant_id with
                  | some n => PVal.pint n
                  | none => PVal.pstr r.participant_id]),
       acc.2 ++ [(r.participant_id, r.bot_name.getD "")])
    else (acc.1 ++ [PVal.pstr r.participant_id], acc.2)) ([], [])

/-- db_integration.py get_tournaments_data: enumerate tournament ids, then
per tournament build the document entry: parent fields, the winner key
only when winner_id is truthy, the reward keys that are present in the
stored blob, the participant list, and the bot_names mapping only when it
is nonempty. -/
def get_tournaments_data (db : DB) : List (String × TournEntry) :=
  (db.tournaments.map (fun x => x.tournament_id)).filterMap (fun tid =>
    match get_tournament db tid with
    | none => none
    | some row =>
        let pr := projectParticipants (get_tournament_participants db tid)
        some (tid,
          { title := some row.title, host := row.host_id,
            description := some row.description, status := some row.status,
            winner := (match row.winner_id with
                       | some w => if w == "" then none else some w
                       | none => none),
            participants := some pr.1,
            bot_names := if pr.2.isEmpty then none else some (.table pr.2),
            add_money := row.reward_data.add_money,
            set_money := row.reward_data.set_money,
            rem_money := row.reward_data.rem_money,
            reward_title := row.reward_data.reward_title }))

/-- One per-job object inside an economy document entry. -/
structure EconJobRec where
  xp : Option Int := none
  rank : Option String := none
  last_work : Option String := none
deriving Repr, DecidableEq

/-- One user object of the economy document.  The inventory list may hold
non-string items (modelled as none) which the isinstance check skips; the
jobs mapping may hold non-dict values (none) which are likewise skipped. -/
structure EconEntry where
  cash : Option Int := none
  bank : Option Int := none
  job : Option String := none
  last_cultivate : Option String := none
  last_collect : Option String := none
  message_count : Option Int := none
  inventory : Option (List (Option String)) := none
  jobs : Option (List (String × Option EconJobRec)) := none
deriving Repr, DecidableEq

/-- The body of the migrate_economy loop for one valid (dict) entry:
update_user with the six fields, add each string inventory item, and
update each dict job record. -/
def migrateEconEntry (t : Nat) (db : DB) (uid : String) (e : EconEntry) : DB :=
  let db1 := (update_user t db uid
      { cash := some (e.cash.getD 0), bank := some (e.bank.getD 0),
        job := some e.job, last_cultivate := some e.last_cultivate,
        last_collect := some e.last_collect,
        message_count := some (e.message_count.getD 0) }).2
  let db2 := match e.inventory with
    | some items =>
        items.foldl (fun d it =>
          match it with
          | some nm => (add_inventory_item t d uid nm 1 "common" emptyJson).2
          | none => d) db1
    | none => db1
  match e.jobs with
  | some js =>
      js.foldl (fun d x =>
        match x.2 with
        | some jr => (update_user_job t d uid x.1
            { xp := some (jr.xp.getD 0), rank := some (jr.rank.getD "apprentice"),
              last_work := some jr.last_work }).2
        | none => d) db2
  | none => db2

/-- database.py migrate_economy: the loop raises AttributeError at
data.get on the first non-dict entry (there is no isinstance guard in this
step); everything written before the raise stays committed. -/
def migrate_economy (t : Nat) (db : DB) : List (String × Option EconEntry) → Except DB DB
  | [] => .ok db
  | (_, none) :: _ => .error db
  | (uid, some e) :: rest => migrate_economy t (migrateEconEntry t db uid e) rest

/-- The committed effect of database.py migrate_jobs: set_job for every
entry that is a list of length at least two; other values are skipped by
the isinstance and length guards, so this step raises nothing. -/
def migrateJobsRun (doc : List (String × Option (List Int))) (db : DB) : DB :=
  doc.foldl (fun d x =>
    match x.2 with
    | some (a :: b :: _) => (set_job d x.1 a b).2
    | _ => d) db

def migrate_jobs (doc : List (String × Option (List Int))) (db : DB) : Except DB DB :=
  .ok (migrateJobsRun doc db)

/-- One item object of the store document; extra is the serialized mapping
of the keys that are not price, description, stock, min_rank or rarity. -/
structure StoreEntry where
  price : Option Int := none
  description : Option String := none
  stock : Option Int := none
  min_rank : Option Int := none
  rarity : Option String := none
  extra : String := "\x7b\x7d"
deriving Repr, DecidableEq

/-- The committed effect of database.py migrate_store: set_store_item for
every dict entry with defaults for the absent keys; non-dict values are
skipped by the isinstance guard, so this step raises nothing. -/
def migrateStoreRun (doc : List (String × Option StoreEntry)) (db : DB) : DB :=
  doc.foldl (fun d x =>
    match x.2 with
    | some e => (set_store_item d x.1 (e.price.getD 0) (e.description.getD "")
        (e.stock.getD (-1)) (e.min_rank.getD 0) (e.rarity.getD "common") e.extra).2
    | none => d) db

def migrate_store (doc : List (String × Option StoreEntry)) (db : DB) : Except DB DB :=
  .ok (migrateStoreRun doc db)

/-- The committed effect of database.py migrate_sects: the create-new-sect
body for every dict entry; non-dict values are skipped by the isinstance
guard, so this step raises nothing. -/
def migrateSectsRun (t : Nat) (doc : List (String × Option SectEntry)) (db : DB) : DB :=
  doc.foldl (fun d x =>
    match x.2 with
    | some e => createSectFromEntry t d x.1 e
    | none => d) db

def migrate_sects (t : Nat) (doc : List (String × Option SectEntry)) (db : DB) :
    Except DB DB :=
  .ok (migrateSectsRun t doc db)

/-- The participant loop of migrate_tournaments: each participant is
classified as bot by the strict-negative-int test; for a bot, when the
bot_names key is present its value receives a .get call, which raises
AttributeError when that value is not a dict — the raise happens before
that participant is added, everything already added stays committed, and
the exception escapes the whole step. -/
def migrateTournParticipants (t : Nat) (tid : String) (e : TournEntry) :
    List PVal → DB → Except DB DB
  | [], db => .ok db
  | p :: rest, db =>
      let isBot : Bool := match p with | .pint n => decide (n < 0) | .pstr _ => false
      if isBot then
        match e.bot_names with
        | some .malformed => .error db
        | some (.table bn) =>
            migrateTournParticipants t tid e rest
              (add_tournament_participant t db tid p.str isBot (lookupStr bn p.str)).2
        | none =>
            migrateTournParticipants t tid e rest
              (add_tournament_participant t db tid p.str isBot none).2
      else
        migrateTournParticipants t tid e rest
          (add_tournament_participant t db tid p.str isBot none).2

/-- The body of the migrate_tournaments loop for one dict entry: extract
the reward keys, create the tournament, apply status and winner as a
second update, then add the participants (which may raise on a malformed
bot_names value). -/
def migrateTournEntry (t : Nat) (db : DB) (tid : String) (e : TournEntry) :
    Except DB DB :=
  let db1 := (create_tournament t db tid (e.host.getD "0")
      (e.title.getD ("Tournament " ++ tid)) (e.description.getD "") (extractReward e)).2
  let db2 := (update_tournament db1 tid
      { status := some (e.status.getD "recruiting"),
        winner_id := e.winner.map (fun w => some w) }).2
  match e.participants with
  | none => .ok db2
  | some ps => migrateTournParticipants t tid e ps db2

/-- database.py migrate_tournaments: non-dict entry values are skipped by
the isinstance guard, but an AttributeError from the bot_names .get inside
one entry escapes the step, abandoning the remaining entries; every helper
call before the raise stays committed. -/
def migrate_tournaments (t : Nat) : List (String × Option TournEntry) → DB → Except DB DB
  | [], db => .ok db
  | (_, none) :: rest, db => migrate_tournaments t rest db
  | (tid, some e) :: rest, db =>
      match migrateTournEntry t db tid e with
      | .error d => .error d
      | .ok d => migrate_tournaments t rest d

/-- database.py migrate_json_to_db: the five steps run in order inside one
try block; the first exception that escapes a step skips all later steps
and makes the run return False (the state keeps everything committed
before the raise), and a clean run returns True. -/
def migrate_json_to_db (t : Nat)
    (edoc : List (String × Option EconEntry))
    (jdoc : List (String × Option (List Int)))
    (stdoc : List (String × Option StoreEntry))
    (sedoc : List (String × Option SectEntry))
    (tdoc : List (String × Option TournEntry)) (db : DB) : Bool × DB :=
  match migrate_economy t db edoc with
  | .error e => (false, e)
  | .ok d1 =>
    match migrate_jobs jdoc d1 with
    | .error e => (false, e)
    | .ok d2 =>
      match migrate_store stdoc d2 with
      | .error e => (false, e)
      | .ok d3 =>
        match migrate_sects t sedoc d3 with
        | .error e => (false, e)
        | .ok d4 =>
          match migrate_tournaments t tdoc d4 with
          | .error e => (false, e)
          | .ok d5 => (true, d5)

/-
  Concrete instances used by the counterexample and witness theorems below.
-/

/-- The logical user fields of a get_user result: everything except the
created_at and updated_at columns. -/
def coreFields (r : UserRet) :
    String × Int × Int × Option String × Option String × Option String × Int :=
  (r.user_id, r.cash, r.bank, r.job, r.last_cultivate, r.last_collect, r.message_count)

/-- The user row produced by a clamped balance write on a fresh user at time 0. -/
def uW : UserRow :=
  { user_id := "1", cash := 0, bank := 0, job := none, last_cultivate := none,
    last_collect := none, message_count := 0, created_at := 0, updated_at := 0 }

/-- A store with one sect s1 (wealth 0) led by user L. -/
def c1db : DB :=
  { dbEmpty with
    users := [rowNew "L" 0],
    sects := [{ sect_id := "s1", name := "Iron", leader_id := some "L",
                description := "", level := 1, wealth := 0, max_members := 10,
                created_at := 0 }],
    sect_members := [{ sect_id := "s1", user_id := "L", role := "leader", joined_at := 0 }] }

/-- A sects document whose first entry is a valid update of s1 (wealth 500)
and whose second entry is a non-dict value that raises during absorb. -/
def c1doc : List (String × Option SectEntry) :=
  [("s1", some { name := some "Iron", leader := some "L", description := some "",
                 level := some 1, wealth := some 500, members := some ["L"] }),
   ("s2", none)]

/-- An economy document whose only entry is a non-dict value, so the
economy migration step raises. -/
def c3edoc : List (String × Option EconEntry) := [("u1", none)]

/-- A jobs document defining one job. -/
def c3jdoc : List (String × Option (List Int)) := [("miner", some [1, 2])]

/-- The tournaments document of the bot-classification scenario:
participants [200, -1, -2] with bot_names mapping -1 to Iron Golem. -/
def c5doc : List (String × Option TournEntry) :=
  [("t1", some { host := some "H", title := some "Grand",
                 participants := some [.pint 200, .pint (-1), .pint (-2)],
                 bot_names := some (.table [("-1", "Iron Golem")]) })]

/-- The store after migrating the bot-classification scenario at time 3
(that migration raises nothing, so the ok state is the final state). -/
def c5db : DB :=
  match migrate_tournaments 3 c5doc dbEmpty with
  | .ok d => d
  | .error d => d

/-- A tournaments document whose only entry holds a bot participant and a
non-dict bot_names value, so the tournaments migration step raises after
the tournament row is created. -/
def c3tbad : List (String × Option TournEntry) :=
  [("t1", some { participants := some [.pint (-1)],
                 bot_names := some .malformed })]

/-- The state committed by the tournaments step of c3tbad up to its raise:
the created tournament row and its second status update, with no
participant added. -/
def c3terr : DB :=
  match migrate_tournaments 0 c3tbad dbEmpty with
  | .error d => d
  | .ok d => d

/-- The participant list projected back from the migrated scenario. -/
def c5parts : List PVal := [PVal.pstr "200", PVal.pint (-1), PVal.pstr "-2"]

/-- A store with two sects of two members each, for the round-trip witness. -/
def c6db : DB :=
  { dbEmpty with
    users := [rowNew "A" 0, rowNew "B" 0, rowNew "C" 0, rowNew "D" 0],
    sects := [{ sect_id := "s1", name := "One", leader_id := some "A",
                description := "", level := 1, wealth := 5, max_members := 10,
                created_at := 0 },
              { sect_id := "s2", name := "Two", leader_id := some "C",
                description := "d", level := 2, wealth := 7, max_members := 10,
                created_at := 0 }],
    sect_members := [{ sect_id := "s1", user_id := "A", role := "leader", joined_at := 0 },
                     { sect_id := "s1", user_id := "B", role := "member", joined_at := 1 },
                     { sect_id := "s2", user_id := "C", role := "leader", joined_at := 0 },
                     { sect_id := "s2", user_id := "D", role := "member", joined_at := 2 }] }

/-- A store with one sect s1 whose members are exactly A, B and C. -/
def c7db : DB :=
  { dbEmpty with
    users := [rowNew "A" 0, rowNew "B" 0, rowNew "C" 0],
    sects := [{ sect_id := "s1", name := "One", leader_id := some "A",
                description := "", level := 1, wealth := 0, max_members := 10,
                created_at := 0 }],
    sect_members := [{ sect_id := "s1", user_id := "A", role := "leader", joined_at := 0 },
                     { sect_id := "s1", user_id := "B", role := "member", joined_at := 1 },
                     { sect_id := "s1", user_id := "C", role := "member", joined_at := 2 }] }

/-- A document entry listing sect s1 with members [B, C, D]. -/
def c7e : SectEntry :=
  { name := some "One", leader := some "A", members := some ["B", "C", "D"] }

/-- One existing inventory row with a stored metadata value. -/
def c10row : InvRow :=
  { id := 1, user_id := "1", item_name := "Sword", quantity := 2,
    rarity := "common", metadata := "meta1" }

/-- A store holding user 1 with the one inventory row above. -/
def c10db : DB :=
  { dbEmpty with users := [rowNew "1" 0], inventory := [c10row], next_inv := 2 }

/-
  Helper lemmas about the operations.
-/

theorem get_user_hit {db : DB} {uid : String} {u : UserRow} (t : Nat)
    (h : findUser db uid = some u) : get_user t db uid = (retOf u, db) := by
  simp [get_user, get_userE, h]

theorem get_user_miss {db : DB} {uid : String} (t : Nat)
    (h : findUser db uid = none) :
    get_user t db uid = (defaultUserRet uid, { db with users := db.users ++ [rowNew uid t] }) := by
  simp [get_user, get_userE, h]

theorem get_user_users_cases (t : Nat) (db : DB) (uid : String) :
    (get_user t db uid).2.users = db.users ∨
    (get_user t db uid).2.users = db.users ++ [rowNew uid t] := by
  cases h : findUser db uid with
  | some u => rw [get_user_hit t h]; exact Or.inl rfl
  | none => rw [get_user_miss t h]; exact Or.inr rfl

theorem get_user_inventory (t : Nat) (db : DB) (uid : String) :
    (get_user t db uid).2.inventory = db.inventory := by
  cases h : findUser db uid with
  | some u => rw [get_user_hit t h]
  | none => rw [get_user_miss t h]

theorem get_user_next_inv (t : Nat) (db : DB) (uid : String) :
    (get_user t db uid).2.next_inv = db.next_inv := by
  cases h : findUser db uid with
  | some u => rw [get_user_hit t h]
  | none => rw [get_user_miss t h]

theorem get_user_user_jobs (t : Nat) (db : DB) (uid : String) :
    (get_user t db uid).2.user_jobs = db.user_jobs := by
  cases h : findUser db uid with
  | some u => rw [get_user_hit t h]
  | none => rw [get_user_miss t h]

theorem get_user_sects (t : Nat) (db : DB) (uid : String) :
    (get_user t db uid).2.sects = db.sects := by
  cases h : findUser db uid with
  | some u => rw [get_user_hit t h]
  | none => rw [get_user_miss t h]

theorem get_user_sect_members (t : Nat) (db : DB) (uid : String) :
    (get_user t db uid).2.sect_members = db.sect_members := by
  cases h : findUser db uid with
  | some u => rw [get_user_hit t h]
  | none => rw [get_user_miss t h]

theorem get_user_ensures (t : Nat) (db : DB) (uid : String) :
    (findUser (get_user t db uid).2 uid).isSome := by
  cases h : findUser db uid with
  | some u => rw [get_user_hit t h]; simp [h]
  | none =>
      rw [get_user_miss t h]
      have hn : db.users.find? (fun u => u.user_id == uid) = none := h
      simp [findUser, List.find?_append, hn, rowNew]

theorem update_user_cash_stored (t : Nat) (db : DB) (uid : String) (v : Int) (u : UserRow)
    (hu : u ∈ (update_user t db uid { cash := some v }).2.users) (hid : u.user_id = uid) :
    u.cash = v := by
  simp only [update_user, UserUpdate.isEmpty, Option.isNone_some, Bool.false_and,
    Bool.false_eq_true, if_false] at hu
  rcases List.mem_map.mp hu with ⟨x, hx, hfx⟩
  by_cases hxi : x.user_id = uid
  · rw [if_pos (beq_iff_eq.mpr hxi)] at hfx
    rw [← hfx]
    rfl
  · rw [if_neg (fun hb => hxi (beq_iff_eq.mp hb))] at hfx
    rw [← hfx] at hid
    exact absurd hid hxi

theorem update_user_bank_stored (t : Nat) (db : DB) (uid : String) (v : Int) (u : UserRow)
    (hu : u ∈ (update_user t db uid { bank := some v }).2.users) (hid : u.user_id = uid) :
    u.bank = v := by
  simp only [update_user, UserUpdate.isEmpty, Option.isNone_some, Option.isNone_none,
    Bool.true_and, Bool.false_and, Bool.false_eq_true, if_false] at hu
  rcases List.mem_map.mp hu with ⟨x, hx, hfx⟩
  by_cases hxi : x.user_id = uid
  · rw [if_pos (beq_iff_eq.mpr hxi)] at hfx
    rw [← hfx]
    rfl
  · rw [if_neg (fun hb => hxi (beq_iff_eq.mp hb))] at hfx
    rw [← hfx] at hid
    exact absurd hid hxi

/-- C2 (amended): the dedicated balance helpers add_cash, set_cash,
add_bank and set_bank clamp the stored cash and bank to zero, so those
writes never leave a negative balance; update_user itself stores the
provided value verbatim with no clamping, so a negative cash passed to
update_user is stored as given. -/
theorem balance_writes_clamped (t : Nat) (db : DB) (uid : String) (amount : Int)
    (u : UserRow) :
    (u ∈ (add_cash t db uid amount).2.users → u.user_id = uid → 0 ≤ u.cash) ∧
    (u ∈ (set_cash t db uid amount).2.users → u.user_id = uid → 0 ≤ u.cash) ∧
    (u ∈ (add_bank t db uid amount).2.users → u.user_id = uid → 0 ≤ u.bank) ∧
    (u ∈ (set_bank t db uid amount).2.users → u.user_id = uid → 0 ≤ u.bank) ∧
    (∀ c : Int, u ∈ (update_user t db uid { cash := some c }).2.users →
       u.user_id = uid → u.cash = c) := by
  refine ⟨?_, ?_, ?_, ?_, fun c hu hid => update_user_cash_stored t db uid c u hu hid⟩
  · intro hu hid
    simp only [add_cash] at hu
    rw [update_user_cash_stored _ _ _ _ _ hu hid]
    exact le_max_left 0 _
  · intro hu hid
    simp only [set_cash] at hu
    rw [update_user_cash_stored _ _ _ _ _ hu hid]
    exact le_max_left 0 _
  · intro hu hid
    simp only [add_bank] at hu
    rw [update_user_bank_stored _ _ _ _ _ hu hid]
    exact le_max_left 0 _
  · intro hu hid
    simp only [set_bank] at hu
    rw [update_user_bank_stored _ _ _ _ _ hu hid]
    exact le_max_left 0 _

/-- C2 witness: a clamped write at a concrete input, plus the verbatim
behaviour of update_user at cash 0. -/
theorem balance_writes_clamped_w :
    uW ∈ (add_cash 0 dbEmpty "1" (-7)).2.users ∧ 0 ≤ uW.cash ∧
    uW ∈ (update_user 0 dbEmpty "1" { cash := some 0 }).2.users ∧ uW.cash = 0 :=
  ⟨by decide, (balance_writes_clamped 0 dbEmpty "1" (-7) uW).1 (by decide) rfl,
   by decide,
   (balance_writes_clamped 0 dbEmpty "1" 0 uW).2.2.2.2 0 (by decide) rfl⟩

/-- C2 counterexample: update_user with a negative cash value stores the
negative value, not zero, so the stored cash can be negative after a write. -/
theorem update_user_stores_negative :
    (findUser (update_user 0 dbEmpty "1" { cash := some (-5) }).2 "1").map
      (fun x => x.cash) = some (-5) ∧ ((-5 : Int) < 0) := by
  refine ⟨by decide, by decide⟩

/-- C4 (amended): removing an absent sect member or tournament participant
returns true with the state unchanged, but removing an absent inventory
item returns false (with the state unchanged) rather than no-op success. -/
theorem remove_missing_target (db : DB) (s u tid pid uid nm : String) (q : Int)
    (rar : Option String)
    (h1 : ∀ m ∈ db.sect_members, ¬(m.sect_id = s ∧ m.user_id = u))
    (h2 : ∀ p ∈ db.tournament_participants, ¬(p.tournament_id = tid ∧ p.participant_id = pid))
    (h3 : db.inventory.find? (invMatches uid nm rar) = none) :
    remove_sect_member db s u = (true, db) ∧
    remove_tournament_participant db tid pid = (true, db) ∧
    remove_inventory_item db uid nm q rar = (false, db) := by
  refine ⟨?_, ?_, ?_⟩
  · have hf : db.sect_members.filter (fun m => !(m.sect_id == s && m.user_id == u)) =
        db.sect_members := by
      rw [List.filter_eq_self]
      intro m hm
      rcases not_and_or.mp (h1 m hm) with hne | hne <;>
        simp [beq_eq_false_iff_ne.mpr hne]
    unfold remove_sect_member
    rw [hf]
  · have hf : db.tournament_participants.filter
        (fun p => !(p.tournament_id == tid && p.participant_id == pid)) =
        db.tournament_participants := by
      rw [List.filter_eq_self]
      intro p hp
      rcases not_and_or.mp (h2 p hp) with hne | hne <;>
        simp [beq_eq_false_iff_ne.mpr hne]
    unfold remove_tournament_participant
    rw [hf]
  · unfold remove_inventory_item
    rw [h3]

/-- C4 witness: the three removal behaviours at a concrete empty store. -/
theorem remove_missing_target_w :
    remove_sect_member dbEmpty "s" "u" = (true, dbEmpty) ∧
    remove_tournament_participant dbEmpty "t" "p" = (true, dbEmpty) ∧
    remove_inventory_item dbEmpty "u" "Sword" 1 none = (false, dbEmpty) :=
  remove_missing_target dbEmpty "s" "u" "t" "p" "u" "Sword" 1 none
    (by intro m hm; exact absurd hm (List.not_mem_nil m))
    (by intro p hp; exact absurd hp (List.not_mem_nil p))
    (by rfl)

/-- C4 counterexample: remove_inventory_item on a missing item reports
failure instead of no-op success. -/
theorem remove_inventory_missing_is_false :
    (remove_inventory_item dbEmpty "1" "Sword" 1 none).1 = false := by decide

/-- C9: update_user_job on a (user, job) pair with no existing row returns
true and appends exactly one row merging the provided fields with the
defaults xp = 0 and rank = apprentice, after ensuring the user row exists. -/
theorem update_user_job_inserts (t : Nat) (db : DB) (uid jobName : String) (d : UJUpdate)
    (h : db.user_jobs.find? (fun x => x.user_id == uid && x.job_name == jobName) = none) :
    (update_user_job t db uid jobName d).1 = true ∧
    (update_user_job t db uid jobName d).2.user_jobs =
      db.user_jobs ++ [{ user_id := uid, job_name := jobName, xp := d.xp.getD 0,
                         rank := d.rank.getD "apprentice",
                         last_work := d.last_work.getD none }] ∧
    (findUser (update_user_job t db uid jobName d).2 uid).isSome := by
  have hj : (get_user t db uid).2.user_jobs = db.user_jobs := get_user_user_jobs t db uid
  refine ⟨by simp [update_user_job, hj, h], by simp [update_user_job, hj, h], ?_⟩
  have hu : (update_user_job t db uid jobName d).2.users = (get_user t db uid).2.users := by
    simp [update_user_job, hj, h]
  have he := get_user_ensures t db uid
  simpa [findUser, hu] using he

/-- C9 witness at a concrete input. -/
theorem update_user_job_inserts_w :
    (update_user_job 0 dbEmpty "1" "miner" { xp := some 5 }).1 = true ∧
    (update_user_job 0 dbEmpty "1" "miner" { xp := some 5 }).2.user_jobs =
      [{ user_id := "1", job_name := "miner", xp := 5, rank := "apprentice",
         last_work := none }] ∧
    (findUser (update_user_job 0 dbEmpty "1" "miner" { xp := some 5 }).2 "1").isSome :=
  update_user_job_inserts 0 dbEmpty "1" "miner" { xp := some 5 } (by rfl)

/-- C10: when a row for the (user_id, item_name, rarity) triple exists,
add_inventory_item only increments that row, keeps every metadata value
already stored, adds and removes no rows, leaves every other row in place,
and discards the metadata argument. -/
theorem add_inventory_merges (t : Nat) (db : DB) (uid nm : String) (qty : Int)
    (rar metaArg : String) (ex : InvRow)
    (h : db.inventory.find? (fun x =>
        x.user_id == uid && x.item_name == nm && x.rarity == rar) = some ex) :
    (add_inventory_item t db uid nm qty rar metaArg).1 = true ∧
    (add_inventory_item t db uid nm qty rar metaArg).2.inventory.map (fun r => r.metadata) =
      db.inventory.map (fun r => r.metadata) ∧
    (add_inventory_item t db uid nm qty rar metaArg).2.inventory.map (fun r => r.id) =
      db.inventory.map (fun r => r.id) ∧
    { ex with quantity := ex.quantity + qty } ∈
      (add_inventory_item t db uid nm qty rar metaArg).2.inventory ∧
    (∀ r ∈ db.inventory, r.id ≠ ex.id →
       r ∈ (add_inventory_item t db uid nm qty rar metaArg).2.inventory) := by
  have hi : (get_user t db uid).2.inventory = db.inventory := get_user_inventory t db uid
  simp only [add_inventory_item, hi, h]
  refine ⟨trivial, ?_, ?_, ?_, ?_⟩
  · rw [List.map_map]
    apply List.map_congr_left
    intro r _
    by_cases hr : r.id = ex.id <;> simp [hr]
  · rw [List.map_map]
    apply List.map_congr_left
    intro r _
    by_cases hr : r.id = ex.id <;> simp [hr]
  · have hm : ex ∈ db.inventory := List.mem_of_find?_eq_some h
    have hmem := List.mem_map_of_mem
      (fun x => if x.id == ex.id then { x with quantity := ex.quantity + qty } else x) hm
    simpa using hmem
  · intro r hr hne
    simp only [beq_iff_eq]
    exact List.mem_map.mpr ⟨r, hr, by simp [hne]⟩

/-- C10 witness at a concrete one-row inventory. -/
theorem add_inventory_merges_w :
    (add_inventory_item 0 c10db "1" "Sword" 3 "common" "meta2").1 = true ∧
    (add_inventory_item 0 c10db "1" "Sword" 3 "common" "meta2").2.inventory.map
      (fun r => r.metadata) = c10db.inventory.map (fun r => r.metadata) ∧
    (add_inventory_item 0 c10db "1" "Sword" 3 "common" "meta2").2.inventory.map
      (fun r => r.id) = c10db.inventory.map (fun r => r.id) ∧
    { c10row with quantity := c10row.quantity + 3 } ∈
      (add_inventory_item 0 c10db "1" "Sword" 3 "common" "meta2").2.inventory ∧
    (∀ r ∈ c10db.inventory, r.id ≠ c10row.id →
       r ∈ (add_inventory_item 0 c10db "1" "Sword" 3 "common" "meta2").2.inventory) :=
  add_inventory_merges 0 c10db "1" "Sword" 3 "common" "meta2" c10row (by rfl)

/-- C8 (amended): two get_user calls with no intervening writes agree on
all user fields (user_id, cash, bank, job, last_cultivate, last_collect,
message_count), the row exists in storage after the first call, the second
call changes nothing, and a storage fault yields the zero-valued record
with the state untouched instead of an exception.  The full returned
records can still differ because the first (creating) call returns a dict
without the created_at and updated_at columns. -/
theorem get_user_contract (t1 t2 t3 : Nat) (db : DB) (uid : String) :
    coreFields (get_user t2 (get_user t1 db uid).2 uid).1 =
      coreFields (get_user t1 db uid).1 ∧
    (findUser (get_user t1 db uid).2 uid).isSome ∧
    (get_user t2 (get_user t1 db uid).2 uid).2 = (get_user t1 db uid).2 ∧
    get_userE true t3 db uid = (defaultUserRet uid, db) := by
  have key : ∀ tA tB : Nat,
      coreFields (get_user tB (get_user tA db uid).2 uid).1 =
        coreFields (get_user tA db uid).1 ∧
      (get_user tB (get_user tA db uid).2 uid).2 = (get_user tA db uid).2 := by
    intro tA tB
    cases h : findUser db uid with
    | some u =>
        constructor <;> simp [get_user_hit tA h, get_user_hit tB h]
    | none =>
        have hn : db.users.find? (fun x => x.user_id == uid) = none := h
        have h2 : findUser { db with users := db.users ++ [rowNew uid tA] } uid =
            some (rowNew uid tA) := by
          simp [findUser, List.find?_append, hn, rowNew]
        refine ⟨?_, ?_⟩
        · simp only [get_user_miss tA h, get_user_hit tB h2]
          simp [coreFields, retOf, rowNew, defaultUserRet]
        · simp only [get_user_miss tA h, get_user_hit tB h2]
  exact ⟨(key t1 t2).1, get_user_ensures t1 db uid, (key t1 t2).2, rfl⟩

/-- C8 counterexample: on a fresh user the first get_user call returns a
record without the created_at and updated_at columns while the second call
returns them, so the two returned values are not identical. -/
theorem get_user_returns_differ :
    (get_user 5 dbEmpty "1").1 ≠ (get_user 5 (get_user 5 dbEmpty "1").2 "1").1 := by
  decide

/-- C1: evaluation at the failing input.  Absorbing a sects document whose
first entry is a valid update and whose second entry raises leaves the
first entry committed: the stored wealth of s1 changed from 0 to 500 even
though the absorb call failed, so the write was not rolled back as a unit. -/
theorem absorb_failure_keeps_partial_write :
    save_sects_data 1 c1doc c1db ≠ c1db ∧
    (get_sect (save_sects_data 1 c1doc c1db) "s1").map (fun s => s.wealth) = some 500 ∧
    (get_sect c1db "s1").map (fun s => s.wealth) = some 0 := by
  refine ⟨by decide, by decide, by decide⟩

/-- C3 counterexample: with an economy document whose entry raises and a
jobs document defining the job miner, the run returns false with the store
still empty: the jobs step (and every later step) never executed, so a
failure in one step does prevent the later steps. -/
theorem migrate_failure_skips_later_steps :
    migrate_json_to_db 0 c3edoc c3jdoc [] [] [] dbEmpty = (false, dbEmpty) ∧
    (migrate_json_to_db 0 c3edoc c3jdoc [] [] [] dbEmpty).2.jobs = [] := by
  refine ⟨by decide, by decide⟩

/-- C3 (amended): the five migration steps share one try block, so they
are not independent: an exception escaping the economy step aborts the run
immediately with the partial economy state and none of the later steps
applied; the jobs, store and sects steps cannot raise (isinstance and
length guards skip malformed values); an exception escaping the
tournaments step (a malformed bot_names value met while adding a bot
participant) likewise makes the run return false with only the work
committed before the raise; and when no exception escapes, all five steps
run in order and the run returns true. -/
theorem migrate_run_aborts_on_step_failure (t : Nat)
    (edoc : List (String × Option EconEntry))
    (jdoc : List (String × Option (List Int)))
    (stdoc : List (String × Option StoreEntry))
    (sedoc : List (String × Option SectEntry))
    (tdoc : List (String × Option TournEntry)) (db : DB) :
    (∀ e, migrate_economy t db edoc = .error e →
       migrate_json_to_db t edoc jdoc stdoc sedoc tdoc db = (false, e)) ∧
    (∀ d1 e, migrate_economy t db edoc = .ok d1 →
       migrate_tournaments t tdoc (migrateSectsRun t sedoc
         (migrateStoreRun stdoc (migrateJobsRun jdoc d1))) = .error e →
       migrate_json_to_db t edoc jdoc stdoc sedoc tdoc db = (false, e)) ∧
    (∀ d1 d5, migrate_economy t db edoc = .ok d1 →
       migrate_tournaments t tdoc (migrateSectsRun t sedoc
         (migrateStoreRun stdoc (migrateJobsRun jdoc d1))) = .ok d5 →
       migrate_json_to_db t edoc jdoc stdoc sedoc tdoc db = (true, d5)) := by
  refine ⟨?_, ?_, ?_⟩
  · intro e he
    simp [migrate_json_to_db, he]
  · intro d1 e h1 h5
    simp [migrate_json_to_db, h1, migrate_jobs, migrate_store, migrate_sects, h5]
  · intro d1 d5 h1 h5
    simp [migrate_json_to_db, h1, migrate_jobs, migrate_store, migrate_sects, h5]

/-- C3 witness: the three branches of the control flow at concrete
documents: an economy raise, a tournaments raise (malformed bot_names),
and a clean run. -/
theorem migrate_run_aborts_w :
    migrate_json_to_db 0 c3edoc [] [] [] [] dbEmpty = (false, dbEmpty) ∧
    migrate_json_to_db 0 [] [] [] [] c3tbad dbEmpty = (false, c3terr) ∧
    migrate_json_to_db 0 [] c3jdoc [] [] [] dbEmpty =
      (true, migrateSectsRun 0 [] (migrateStoreRun [] (migrateJobsRun c3jdoc dbEmpty))) :=
  ⟨(migrate_run_aborts_on_step_failure 0 c3edoc [] [] [] [] dbEmpty).1 dbEmpty rfl,
   (migrate_run_aborts_on_step_failure 0 [] [] [] [] c3tbad dbEmpty).2.1
     dbEmpty c3terr rfl rfl,
   (migrate_run_aborts_on_step_failure 0 [] c3jdoc [] [] [] dbEmpty).2.2
     dbEmpty (migrateSectsRun 0 [] (migrateStoreRun [] (migrateJobsRun c3jdoc dbEmpty)))
     rfl rfl⟩

/-- C5 counterexample: after migrating participants [200, -1, -2] with
bot_names mapping only -1, projecting back yields the bot id -2 as the
string -2, not in numeric form, so projection does not restore the numeric
form of every bot id. -/
theorem bot_without_name_projects_string :
    (get_tournaments_data c5db).map (fun x => (x.1, x.2.participants)) =
      [("t1", some c5parts)] ∧
    PVal.pstr "-2" ∈ c5parts ∧ PVal.pint (-2) ∉ c5parts := by
  refine ⟨by decide, by decide, by decide⟩

/-- C5 (amended): migrating the scenario stores participant 200 with
is_bot false, participant -1 with is_bot true and bot_name Iron Golem, and
participant -2 with is_bot true and bot_name null, exactly as claimed; the
projection back to the document restores the numeric form only for bot ids
that carry a non-null bot_name, leaving -2 as a string. -/
theorem bot_classification_scenario :
    get_tournament_participants c5db "t1" =
      [{ tournament_id := "t1", participant_id := "200", joined_at := 3,
         is_bot := false, bot_name := none },
       { tournament_id := "t1", participant_id := "-1", joined_at := 3,
         is_bot := true, bot_name := some "Iron Golem" },
       { tournament_id := "t1", participant_id := "-2", joined_at := 3,
         is_bot := true, bot_name := none }] ∧
    (get_tournaments_data c5db).map (fun x => (x.1, x.2.participants, x.2.bot_names)) =
      [("t1", some c5parts, some (BotNamesVal.table [("-1", "Iron Golem")]))] := by
  refine ⟨by decide, by decide⟩

theorem foldl_fixed {α β : Type} (f : β → α → β) (b : β) :
    ∀ L : List α, (∀ x ∈ L, f b x = b) → L.foldl f b = b := by
  intro L
  induction L with
  | nil => intro _; rfl
  | cons a as ih =>
      intro h
      rw [List.foldl_cons, h a (List.mem_cons_self a as)]
      exact ih (fun x hx => h x (List.mem_cons_of_mem a hx))

theorem find?_key_of_nodup {α β : Type} [BEq β] [LawfulBEq β] (key : α → β) :
    ∀ l : List α, (l.map key).Nodup → ∀ r ∈ l,
      l.find? (fun x => key x == key r) = some r := by
  intro l
  induction l with
  | nil => intro _ r hr; cases hr
  | cons a as ih =>
      intro h r hr
      rw [List.map_cons, List.nodup_cons] at h
      rcases List.mem_cons.mp hr with rfl | hmem
      · simp [List.find?_cons]
      · have hne : (key a == key r) = false := by
          apply beq_eq_false_iff_ne.mpr
          intro he
          exact h.1 (he ▸ List.mem_map_of_mem key hmem)
        rw [List.find?_cons, hne]
        exact ih h.2 r hmem

theorem get_sect_isSome_of_mem (db : DB) (sid : String)
    (h : sid ∈ db.sects.map (fun x => x.sect_id)) : (get_sect db sid).isSome := by
  rcases List.mem_map.mp h with ⟨x, hx, hkey⟩
  unfold get_sect
  exact (List.find?_isSome).mpr ⟨x, hx, beq_iff_eq.mpr hkey⟩

theorem update_sect_sect_members (db : DB) (sid : String) (d : SectUpdate) :
    (update_sect db sid d).2.sect_members = db.sect_members := by
  unfold update_sect
  cases get_sect db sid with
  | none => rfl
  | some x => by_cases hd : d.isEmpty <;> simp [hd]

theorem update_sect_users (db : DB) (sid : String) (d : SectUpdate) :
    (update_sect db sid d).2.users = db.users := by
  unfold update_sect
  cases get_sect db sid with
  | none => rfl
  | some x => by_cases hd : d.isEmpty <;> simp [hd]

theorem update_sect_sect_keys (db : DB) (sid : String) (d : SectUpdate) :
    (update_sect db sid d).2.sects.map (fun x => x.sect_id) =
      db.sects.map (fun x => x.sect_id) := by
  unfold update_sect
  cases get_sect db sid with
  | none => rfl
  | some x =>
      by_cases hd : d.isEmpty <;> simp [hd]
      intro r _
      by_cases hr : r.sect_id = sid <;> simp [hr, applySectUpdate]

theorem save_sects_delete_members (docKeys : List String) :
    ∀ (L : List String) (d : DB),
      (L.foldl (fun d sid =>
        if sid ∈ docKeys then d
        else { d with sects := (d.sects.filter (fun s => s.sect_id != sid)) }) d).sect_members
      = d.sect_members := by
  intro L
  induction L with
  | nil => intro d; rfl
  | cons a as ih =>
      intro d
      rw [List.foldl_cons]
      by_cases ha : a ∈ docKeys
      · rw [if_pos ha]
        exact ih d
      · rw [if_neg ha]
        exact ih _

theorem filter_sect_of_remove (M : List SectMemberRow) (s u : String) :
    (M.filter (fun m => !(m.sect_id == s && m.user_id == u))).filter
        (fun m => m.sect_id == s) =
      (M.filter (fun m => m.sect_id == s)).filter (fun m => !(m.user_id == u)) := by
  rw [List.filter_filter, List.filter_filter]
  apply List.filter_congr
  intro m _
  by_cases hm : (m.sect_id == s) = true <;> simp [hm]

theorem get_sects_data_eq (db : DB)
    (h : (db.sects.map (fun s => s.sect_id)).Nodup) :
    get_sects_data db = db.sects.map (fun r => (r.sect_id, sectEntryOf db r)) := by
  unfold get_sects_data
  have key : ∀ L : List SectRow, (∀ r ∈ L, get_sect db r.sect_id = some r) →
      ((L.map (fun s => s.sect_id)).filterMap (fun sid =>
        match get_sect db sid with
        | none => none
        | some row =>
            some (sid,
              { name := some row.name, leader := row.leader_id,
                description := some row.description, level := some row.level,
                wealth := some row.wealth,
                members := some ((get_sect_members db sid).map (fun m => m.user_id)) })))
      = L.map (fun r => (r.sect_id, sectEntryOf db r)) := by
    intro L
    induction L with
    | nil => intro _; rfl
    | cons a as ih =>
        intro hL
        rw [List.map_cons, List.filterMap_cons, hL a (List.mem_cons_self a as)]
        rw [List.map_cons]
        rw [ih (fun r hr => hL r (List.mem_cons_of_mem a hr))]
        rfl
  exact key db.sects (fun r hr =>
    find?_key_of_nodup (fun s : SectRow => s.sect_id) db.sects h r hr)

theorem update_sect_refl (db : DB) (r : SectRow)
    (hnodup : (db.sects.map (fun s => s.sect_id)).Nodup) (hr : r ∈ db.sects) :
    update_sect db r.sect_id
      { name := some r.name, leader_id := some r.leader_id,
        description := some r.description, level := some r.level,
        wealth := some r.wealth } = (true, db) := by
  have hfind : get_sect db r.sect_id = some r :=
    find?_key_of_nodup (fun s : SectRow => s.sect_id) db.sects hnodup r hr
  unfold update_sect
  rw [hfind]
  have hmap : ∀ s ∈ db.sects,
      (if s.sect_id == r.sect_id then
        applySectUpdate
          { name := some r.name, leader_id := some r.leader_id,
            description := some r.description, level := some r.level,
            wealth := some r.wealth } s
       else s) = s := by
    intro s hs
    by_cases hsi : s.sect_id = r.sect_id
    · have hsr : s = r := List.inj_on_of_nodup_map hnodup hs hr hsi
      subst hsr
      rw [if_pos (beq_self_eq_true s.sect_id)]
      rfl
    · rw [if_neg (by simpa using hsi)]
  have hlist : (db.sects.map (fun s =>
      if s.sect_id == r.sect_id then
        applySectUpdate
          { name := some r.name, leader_id := some r.leader_id,
            description := some r.description, level := some r.level,
            wealth := some r.wealth } s
      else s)) = db.sects := by
    rw [List.map_congr_left hmap]
    simp
  simp only [SectUpdate.isEmpty, Option.isNone_some, Bool.false_and, Bool.false_eq_true,
    if_false, hlist]

theorem processSectEntry_self (t : Nat) (db : DB) (r : SectRow)
    (hnodup : (db.sects.map (fun s => s.sect_id)).Nodup) (hr : r ∈ db.sects) :
    processSectEntry t (db.sects.map (fun s => s.sect_id)) db r.sect_id
      (sectEntryOf db r) = db := by
  have hmem : r.sect_id ∈ db.sects.map (fun s => s.sect_id) :=
    List.mem_map_of_mem (fun s => s.sect_id) hr
  unfold processSectEntry
  rw [if_pos hmem]
  simp only [sectEntryOf, Option.getD_some]
  rw [update_sect_refl db r hnodup hr]
  have hadd : ∀ L : List String,
      L.foldl (fun d m =>
        if m ∈ L then d
        else (add_sect_member t d r.sect_id m
          (if r.leader_id == some m then "leader" else "member")).2) db = db :=
    fun L => foldl_fixed _ _ _ (fun m hm => if_pos hm)
  have hrem : ∀ (cur : List SectMemberRow) (ms : List String),
      (∀ m ∈ cur, m.user_id ∈ ms) →
      cur.foldl (fun d m =>
        if m.user_id ∈ ms then d
        else (remove_sect_member d r.sect_id m.user_id).2) db = db :=
    fun cur ms h => foldl_fixed _ _ _ (fun m hm => if_pos (h m hm))
  simp only
  rw [hadd]
  exact hrem _ _ (fun m hm => List.mem_map_of_mem (fun x => x.user_id) hm)

theorem saveSectsAux_const (t : Nat) (existing docKeys : List String) (db : DB) :
    ∀ L : List (String × Option SectEntry),
      (∀ x ∈ L, ∃ sid e, x = (sid, some e) ∧ processSectEntry t existing db sid e = db) →
      (∀ sid ∈ existing, sid ∈ docKeys) →
      saveSectsAux t existing docKeys db L = db := by
  intro L
  induction L with
  | nil =>
      intro _ hdel
      unfold saveSectsAux
      exact foldl_fixed _ _ _ (fun sid hsid => if_pos (hdel sid hsid))
  | cons x xs ih =>
      intro hL hdel
      rcases hL x (List.mem_cons_self x xs) with ⟨sid, e, hx, hproc⟩
      subst hx
      unfold saveSectsAux
      rw [hproc]
      exact ih (fun y hy => hL y (List.mem_cons_of_mem _ hy)) hdel

/-- C6: for a store whose sect ids are distinct (the primary-key invariant
of the sects table), absorbing the document obtained by projecting the
store is a no-op: the resulting state is the original state, so no sect or
member rows are added, removed or changed, and no values differ. -/
theorem project_absorb_noop (t : Nat) (db : DB)
    (hnodup : (db.sects.map (fun s => s.sect_id)).Nodup) :
    save_sects_data t ((get_sects_data db).map (fun x => (x.1, some x.2))) db = db := by
  rw [get_sects_data_eq db hnodup]
  have hdoc : (db.sects.map (fun r => (r.sect_id, sectEntryOf db r))).map
      (fun x => (x.1, some x.2)) =
      db.sects.map (fun r => (r.sect_id, some (sectEntryOf db r))) := by
    rw [List.map_map]
    exact List.map_congr_left (fun r _ => rfl)
  rw [hdoc]
  unfold save_sects_data
  have hkeys : (db.sects.map (fun r => (r.sect_id, some (sectEntryOf db r)))).map
      (fun x => x.1) = db.sects.map (fun s => s.sect_id) := by
    rw [List.map_map]
    exact List.map_congr_left (fun r _ => rfl)
  rw [hkeys]
  apply saveSectsAux_const
  · intro x hx
    rcases List.mem_map.mp hx with ⟨r, hrm, hxr⟩
    exact ⟨r.sect_id, sectEntryOf db r, hxr.symm, processSectEntry_self t db r hnodup hrm⟩
  · intro sid hsid
    exact hsid

/-- C6 witness: the round trip on a concrete store of two sects with two
members each. -/
theorem project_absorb_noop_w :
    save_sects_data 0 ((get_sects_data c6db).map (fun x => (x.1, some x.2))) c6db = c6db :=
  project_absorb_noop 0 c6db (by decide)

/-- C7: for a sect s stored with exactly the member rows for A, B and C
(all three being existing users, per the ownership invariant), absorbing a
document that lists s with members [B, C, D] leaves the member rows of s
exactly B, C and D: the rows of B and C are untouched (same role and same
join timestamp), A is removed, and D is added with the write-time stamp. -/
theorem reconcile_membership_diff (t : Nat) (db : DB) (s A B C D ra rb rc : String)
    (ta tb tc : Nat) (e : SectEntry)
    (hms : db.sect_members.filter (fun m => m.sect_id == s) =
      [{ sect_id := s, user_id := A, role := ra, joined_at := ta },
       { sect_id := s, user_id := B, role := rb, joined_at := tb },
       { sect_id := s, user_id := C, role := rc, joined_at := tc }])
    (hA : db.users.any (fun u => u.user_id == A) = true)
    (hB : db.users.any (fun u => u.user_id == B) = true)
    (hC : db.users.any (fun u => u.user_id == C) = true)
    (hsect : s ∈ db.sects.map (fun x => x.sect_id))
    (hAB : A ≠ B) (hAC : A ≠ C) (hBC : B ≠ C)
    (hDA : D ≠ A) (hDB : D ≠ B) (hDC : D ≠ C)
    (hmem : e.members = some [B, C, D]) :
    (save_sects_data t [(s, some e)] db).sect_members.filter
        (fun m => m.sect_id == s) =
      [{ sect_id := s, user_id := B, role := rb, joined_at := tb },
       { sect_id := s, user_id := C, role := rc, joined_at := tc },
       { sect_id := s, user_id := D,
         role := if e.leader == some D then "leader" else "member",
         joined_at := t }] := by
  have hAD : A ≠ D := fun h => hDA h.symm
  have hBA : B ≠ A := fun h => hAB h.symm
  have hCA : C ≠ A := fun h => hAC h.symm
  have hcur : ∀ d : SectUpdate, get_sect_members ((update_sect db s d).2) s =
      [{ sect_id := s, user_id := A, role := ra, joined_at := ta },
       { sect_id := s, user_id := B, role := rb, joined_at := tb },
       { sect_id := s, user_id := C, role := rc, joined_at := tc }] := by
    intro d
    unfold get_sect_members
    rw [update_sect_sect_members, update_sect_users]
    have hcomm : db.sect_members.filter
        (fun m => m.sect_id == s && db.users.any (fun u => u.user_id == m.user_id)) =
        db.sect_members.filter
          (fun m => db.users.any (fun u => u.user_id == m.user_id) && (m.sect_id == s)) :=
      List.filter_congr (fun m _ => by rw [Bool.and_comm])
    rw [hcomm, ← List.filter_filter, hms]
    simp [hA, hB, hC]
  have hsome : ∀ d : SectUpdate,
      (get_sect ((get_user t ((update_sect db s d).2) D).2) s).isSome := by
    intro d
    apply get_sect_isSome_of_mem
    rw [get_user_sects, update_sect_sect_keys]
    exact hsect
  have hmembers2 : ∀ d : SectUpdate,
      ((get_user t ((update_sect db s d).2) D).2).sect_members = db.sect_members := by
    intro d
    rw [get_user_sect_members, update_sect_sect_members]
  simp only [save_sects_data, saveSectsAux, List.map_cons, List.map_nil]
  rw [save_sects_delete_members]
  simp only [processSectEntry]
  rw [if_pos hsect, hmem]
  simp only [hcur, List.map_cons, List.map_nil, List.foldl_cons, List.foldl_nil]
  simp only [List.mem_cons, List.not_mem_nil, or_false]
  simp only [hAB, hAC, hAD, hDA, hDB, hDC, eq_self_iff_true, true_or, or_true,
    or_false, false_or, or_self, if_true, if_false]
  simp only [add_sect_member]
  rw [if_pos (hsome _)]
  simp only [hmembers2]
  simp only [remove_sect_member]
  rw [List.filter_append, List.filter_append, filter_sect_of_remove,
    filter_sect_of_remove, hms]
  have bAD : (A == D) = false := beq_eq_false_iff_ne.mpr hAD
  have bBD : (B == D) = false := beq_eq_false_iff_ne.mpr (fun h => hDB h.symm)
  have bCD : (C == D) = false := beq_eq_false_iff_ne.mpr (fun h => hDC h.symm)
  have bBA : (B == A) = false := beq_eq_false_iff_ne.mpr hBA
  have bCA : (C == A) = false := beq_eq_false_iff_ne.mpr hCA
  have bDA : (D == A) = false := beq_eq_false_iff_ne.mpr hDA
  simp [bAD, bBD, bCD, bBA, bCA, bDA]

/-- C7 witness: the reconciliation diff on a concrete sect with members
A, B, C absorbed against the document listing B, C, D. -/
theorem reconcile_membership_diff_w :
    (save_sects_data 9 [("s1", some c7e)] c7db).sect_members.filter
        (fun m => m.sect_id == "s1") =
      [{ sect_id := "s1", user_id := "B", role := "member", joined_at := 1 },
       { sect_id := "s1", user_id := "C", role := "member", joined_at := 2 },
       { sect_id := "s1", user_id := "D",
         role := if c7e.leader == some "D" then "leader" else "member",
         joined_at := 9 }] :=
  reconcile_membership_diff 9 c7db "s1" "A" "B" "C" "D" "leader" "member" "member"
    0 1 2 c7e (by decide) (by decide) (by decide) (by decide) (by decide)
    (by decide) (by decide) (by decide) (by decide) (by decide) (by decide) (by decide)

end Pmo
